import Mathlib

/-
Verification development for the fireorm query-composition and
entity-hydration core (src/AbstractFirestoreRepository.ts).

The JavaScript value universe reachable from a stored document is modelled
by the inductive type JSValue.  An object carries the name of its
constructor (obj.constructor.name), whether the property name toDate is
present on it (the duck capability probed by the source with an in-check),
the instant that calling toDate would produce, and its enumerable own
fields in key order.  A native Date produced by a toDate call is modelled
by the separate constructor vdate so that conversion results are visible.
-/

namespace Fireorm

inductive JSValue : Type where
  | vnull : JSValue
  | vundef : JSValue
  | vbool : Bool → JSValue
  | vnum : Int → JSValue
  | vstr : String → JSValue
  | vdate : Int → JSValue
  | vobj : String → Bool → Int → List (String × JSValue) → JSValue

/-- JavaScript truthiness test: the source line `if (!obj[key]) return;`
skips every falsy field value (null, undefined, false, the number 0 and
the empty string).  Objects, including Date objects, are always truthy. -/
def jsFalsy : JSValue → Bool
  | JSValue.vnull => true
  | JSValue.vundef => true
  | JSValue.vbool b => !b
  | JSValue.vnum n => n == 0
  | JSValue.vstr s => s == ""
  | JSValue.vdate _ => false
  | JSValue.vobj _ _ _ _ => false

/-- Property lookup on an object literal built left to right: a later
entry for the same key overwrites an earlier one, exactly as a later
property assignment or spread wins in JavaScript. -/
def jsLookup : List (String × JSValue) → String → Option JSValue
  | [], _ => none
  | (k, v) :: rest, key =>
    match jsLookup rest key with
    | some w => some w
    | none => if k == key then some v else none

/-- Property access obj.k: undefined when the property is absent. -/
def jsGet (fields : List (String × JSValue)) (k : String) : JSValue :=
  (jsLookup fields k).getD JSValue.vundef

/-- The plain object literal built by the source's destructuring
`const { latitude, longitude } = obj[key]` followed by
`obj[key] = { latitude, longitude }`. -/
def plainGeo (fields : List (String × JSValue)) : JSValue :=
  JSValue.vobj "Object" false 0
    [("latitude", jsGet fields "latitude"), ("longitude", jsGet fields "longitude")]

/-- The plain object literal built by the source's destructuring
`const { id, path } = obj[key]` followed by `obj[key] = { id, path }`. -/
def plainRef (fields : List (String × JSValue)) : JSValue :=
  JSValue.vobj "Object" false 0
    [("id", jsGet fields "id"), ("path", jsGet fields "path")]

mutual

/-- One truthy field value as rewritten by the body of the forEach in
transformFirestoreTypes:
if the value is an object carrying toDate it becomes the native date;
else if its constructor name is GeoPoint it becomes the plain
latitude/longitude literal; else if its constructor name is
DocumentReference it becomes the plain id/path literal; else if it is an
object the method recurses into it; otherwise it is left unchanged.
A Date object has no toDate property, its constructor name is Date, and
recursing over its (absent) enumerable keys changes nothing. -/
def transformField : JSValue → JSValue
  | JSValue.vobj ctor htd tdv fields =>
    if htd then JSValue.vdate tdv
    else if ctor == "GeoPoint" then plainGeo fields
    else if ctor == "DocumentReference" then plainRef fields
    else JSValue.vobj ctor htd tdv (transformFirestoreTypes fields)
  | JSValue.vdate t => JSValue.vdate t
  | v => v

/-- transformFirestoreTypes walks Object.keys of the document data in
order; a falsy field is skipped (left as it is, no recursion), every
other field value is rewritten by transformField. -/
def transformFirestoreTypes : List (String × JSValue) → List (String × JSValue)
  | [] => []
  | (k, v) :: rest =>
    (k, if jsFalsy v then v else transformField v) :: transformFirestoreTypes rest

end

/-
Document snapshots and hydration (extractTFromDocSnap).
-/

/-- A DocumentSnapshot as consumed by extractTFromDocSnap: whether the
document exists, the store-side document identifier, and the raw stored
field data returned by doc.data(). -/
structure DocSnapshot : Type where
  docExists : Bool
  docId : String
  data : List (String × JSValue)

/-- The object literal built inside extractTFromDocSnap:
the property id set to doc.id first, then the spread of the transformed
document data.  Under jsLookup a later entry wins, exactly as the spread
overwrites the earlier id property in JavaScript. -/
def hydrateFields (doc : DocSnapshot) : List (String × JSValue) :=
  ("id", JSValue.vstr doc.docId) :: transformFirestoreTypes doc.data

/-- Modelled from the spec: plainToClass (external collaborator) turns the
plain object into a typed entity keeping its fields; the entity is
modelled as its field list, so materialization is the identity here. -/
def plainToClass (fields : List (String × JSValue)) : List (String × JSValue) :=
  fields

/-- extractTFromDocSnap: returns null (none) when the document does not
exist, otherwise materializes the object literal
consisting of id followed by the spread of the transformed data. -/
def extractTFromDocSnap (doc : DocSnapshot) : Option (List (String × JSValue)) :=
  if doc.docExists then some (plainToClass (hydrateFields doc)) else none

/-- The id field of a hydrated entity, read back by property access. -/
def entityIdOf (fields : List (String × JSValue)) : Option JSValue :=
  jsLookup fields "id"

/-- Modelled from the spec: the store hands back, for a requested id, a
snapshot whose exists flag reflects presence; a concrete-repository
findById (BaseFirestoreRepository is not part of this source tree)
fetches that snapshot and hydrates it with extractTFromDocSnap. -/
def storeGetDoc (store : String → Option (List (String × JSValue))) (id : String) :
    DocSnapshot :=
  { docExists := (store id).isSome, docId := id, data := (store id).getD [] }

/-- Modelled from the spec: findById fetches one document by identifier
and hydrates it via extractTFromDocSnap. -/
def findById (store : String → Option (List (String × JSValue))) (id : String) :
    Option (List (String × JSValue)) :=
  extractTFromDocSnap (storeGetDoc store id)

/-
Sub-collection wiring (initializeSubCollections).
-/

/-- The slice of a SubCollectionMetadata that initializeSubCollections
reads: the sub-collection name and the parent property it is attached to. -/
structure SubCollectionMetadata : Type where
  name : String
  propertyKey : String

/-- A repository value attached onto a parent entity property: either a
standalone repository from getRepository, or a transaction-scoped one
obtained from a FirestoreTransaction wrapping the ambient transaction. -/
inductive AttachedRepo : Type where
  | standalone : String → AttachedRepo
  | transactional : Nat → String → AttachedRepo
deriving DecidableEq, Repr

/-- A property slot of a hydrated entity object: plain data, an attached
sub-collection repository, or absent. -/
inductive PropSlot : Type where
  | dataVal : JSValue → PropSlot
  | subRepo : AttachedRepo → PropSlot
  | absent : PropSlot

/-- The hydrated parent entity as initializeSubCollections sees it: its
id and its mutable property map. -/
structure HEntity : Type where
  id : String
  props : String → PropSlot

/-- Modelled from the spec: getRepository(path) yields a standalone
repository bound to the path, and FirestoreTransaction(tran)
.getRepository(path) yields a transaction-scoped repository bound to the
path and routed through the same transaction context (helpers.ts and
FirestoreTransaction are not part of this source tree). -/
def repoForPath (tran : Option Nat) (path : String) : AttachedRepo :=
  match tran with
  | some t => AttachedRepo.transactional t path
  | none => AttachedRepo.standalone path

/-- initializeSubCollections: for every sub-collection descriptor of the
collection metadata, compute pathWithSubCol as path/entity.id/name and
Object.assign the repository for that path onto the entity property named
propertyKey; inside a transaction the repository is obtained from a
FirestoreTransaction over the same transaction. -/
def initializeSubCollections (path : String) (subCols : List SubCollectionMetadata)
    (entity : HEntity) (tran : Option Nat) : HEntity :=
  subCols.foldl
    (fun e subCol =>
      { e with
        props := Function.update e.props subCol.propertyKey
          (PropSlot.subRepo
            (repoForPath tran (path ++ "/" ++ entity.id ++ "/" ++ subCol.name))) })
    entity

/-
Repository construction (AbstractFirestoreRepository.constructor).
-/

/-- The constructor argument: a literal collection path string or an
entity constructor (identified by its class name). -/
inductive PathOrConstructor : Type where
  | pathStr : String → PathOrConstructor
  | entityCtor : String → PathOrConstructor
deriving DecidableEq, Repr

/-- The slice of FullCollectionMetadata the constructor reads. -/
structure FullCollectionMetadata : Type where
  name : String
deriving DecidableEq, Repr

/-- The metadata storage as seen through getMetadataStorage: whether the
firestoreRef has been set by initialization, and the getCollection lookup
(MetadataStorage is not part of this source tree, so the lookup is an
abstract partial function from keys to metadata). -/
structure MetadataStorage : Type where
  firestoreRefSet : Bool
  getCollection : PathOrConstructor → Option FullCollectionMetadata

/-- The errors the constructor can throw: the uninitialized-store error
('Firestore must be initialized first') and the unregistered-collection
error ('There is no metadata stored for ...'). -/
inductive ConstructorError : Type where
  | uninitializedStore : ConstructorError
  | unregisteredCollection : String → ConstructorError
deriving DecidableEq, Repr

/-- The key name interpolated into the unregistered-collection message:
the path itself for a string, the constructor's name otherwise. -/
def keyNameOf : PathOrConstructor → String
  | PathOrConstructor.pathStr p => p
  | PathOrConstructor.entityCtor n => n

/-- An observable interaction with the metadata registry during
construction, recorded in order. -/
inductive RegistryEvent : Type where
  | collectionLookup : PathOrConstructor → RegistryEvent
deriving DecidableEq, Repr

/-- The constructor of AbstractFirestoreRepository: it first throws when
firestoreRef is unset; only then does it call getCollection, throwing
when the lookup returns nothing; otherwise the effective path is the
literal path when a string was given, else the metadata's name.  The
second component records every getCollection call actually made. -/
def repositoryConstruct (ms : MetadataStorage) (poc : PathOrConstructor) :
    Except ConstructorError String × List RegistryEvent :=
  if !ms.firestoreRefSet then
    (Except.error ConstructorError.uninitializedStore, [])
  else
    match ms.getCollection poc with
    | none =>
      (Except.error (ConstructorError.unregisteredCollection (keyNameOf poc)),
        [RegistryEvent.collectionLookup poc])
    | some md =>
      (Except.ok
        (match poc with
         | PathOrConstructor.pathStr p => p
         | PathOrConstructor.entityCtor _ => md.name),
        [RegistryEvent.collectionLookup poc])

/-
Query-builder entry points (whereEqualTo ... orderByDescending, limit).
-/

/-- The six Firestore query operators of IFireOrmQueryLine. -/
inductive FirestoreOperator : Type where
  | opEq | opGt | opGe | opLt | opLe | opArrayContains
deriving DecidableEq, Repr

/-- One accumulated query line: property path, operator and value. -/
structure QueryLine : Type where
  prop : String
  operator : FirestoreOperator
  val : JSValue

/-- An order-by clause with its direction. -/
structure OrderByClause : Type where
  fieldPath : String
  ascending : Bool

/-- Modelled from the spec: the state of a QueryBuilder (QueryBuilder.ts
is not part of this source tree) — an ordered list of query lines, an
optional limit, and an ordered list of order-by clauses; every chaining
call returns a new builder extending this state. -/
structure QueryBuilderState : Type where
  queries : List QueryLine
  limitVal : Option Int
  orderBys : List OrderByClause

/-- The fresh builder made by new QueryBuilder(this). -/
def newQueryBuilder : QueryBuilderState :=
  { queries := [], limitVal := none, orderBys := [] }

/-- Modelled from the spec: QueryBuilder.whereEqualTo and friends append
one query line with the corresponding operator. -/
def qbWhere (qb : QueryBuilderState) (op : FirestoreOperator) (prop : String)
    (val : JSValue) : QueryBuilderState :=
  { qb with queries := qb.queries ++ [{ prop := prop, operator := op, val := val }] }

/-- Modelled from the spec: QueryBuilder.limit records the limit,
last write wins. -/
def qbLimit (qb : QueryBuilderState) (n : Int) : QueryBuilderState :=
  { qb with limitVal := some n }

/-- Modelled from the spec: QueryBuilder.orderByAscending/Descending
append one order-by clause. -/
def qbOrderBy (qb : QueryBuilderState) (prop : String) (asc : Bool) :
    QueryBuilderState :=
  { qb with orderBys := qb.orderBys ++ [{ fieldPath := prop, ascending := asc }] }

/-- The error thrown by the repository's limit for a negative argument:
'limitVal must be greater than 0. It received: ...'. -/
inductive RepoCallError : Type where
  | invalidArgument : Int → RepoCallError
deriving DecidableEq, Repr

/-- The repository state a clause-adding entry point can read or write:
the bound collection path (the entry points construct a fresh builder
from this and perform no store interaction and no field assignment). -/
structure RepositoryState : Type where
  path : String
deriving DecidableEq, Repr

/-- The repository's limit entry point: it throws synchronously for a
negative argument before constructing any builder (and hence before any
store call), otherwise returns new QueryBuilder(this).limit(n).  The
state component is the receiver after the call. -/
def repositoryLimit (r : RepositoryState) (n : Int) :
    RepositoryState × Except RepoCallError QueryBuilderState :=
  if n < 0 then
    (r, Except.error (RepoCallError.invalidArgument n))
  else
    (r, Except.ok (qbLimit newQueryBuilder n))

/-- One clause-adding call on the repository, with its arguments. -/
inductive ClauseCall : Type where
  | whereEqualTo : String → JSValue → ClauseCall
  | whereGreaterThan : String → JSValue → ClauseCall
  | whereGreaterOrEqualThan : String → JSValue → ClauseCall
  | whereLessThan : String → JSValue → ClauseCall
  | whereLessOrEqualThan : String → JSValue → ClauseCall
  | whereArrayContains : String → JSValue → ClauseCall
  | limit : Int → ClauseCall
  | orderByAscending : String → ClauseCall
  | orderByDescending : String → ClauseCall

/-- Dispatch of the nine clause-adding entry points of the repository:
each builds new QueryBuilder(this) and applies the one corresponding
builder method; only limit can throw.  The state component is the
receiver after the call. -/
def repositoryClauseCall (r : RepositoryState) (c : ClauseCall) :
    RepositoryState × Except RepoCallError QueryBuilderState :=
  match c with
  | ClauseCall.whereEqualTo p v =>
    (r, Except.ok (qbWhere newQueryBuilder FirestoreOperator.opEq p v))
  | ClauseCall.whereGreaterThan p v =>
    (r, Except.ok (qbWhere newQueryBuilder FirestoreOperator.opGt p v))
  | ClauseCall.whereGreaterOrEqualThan p v =>
    (r, Except.ok (qbWhere newQueryBuilder FirestoreOperator.opGe p v))
  | ClauseCall.whereLessThan p v =>
    (r, Except.ok (qbWhere newQueryBuilder FirestoreOperator.opLt p v))
  | ClauseCall.whereLessOrEqualThan p v =>
    (r, Except.ok (qbWhere newQueryBuilder FirestoreOperator.opLe p v))
  | ClauseCall.whereArrayContains p v =>
    (r, Except.ok (qbWhere newQueryBuilder FirestoreOperator.opArrayContains p v))
  | ClauseCall.limit n => repositoryLimit r n
  | ClauseCall.orderByAscending p =>
    (r, Except.ok (qbOrderBy newQueryBuilder p true))
  | ClauseCall.orderByDescending p =>
    (r, Except.ok (qbOrderBy newQueryBuilder p false))

/-- The results the bare repository produces (find with no clauses):
every document of the bound collection, hydrated.  The store is the
collection contents keyed by path. -/
def repositoryFindAll (r : RepositoryState) (store : String → List DocSnapshot) :
    List (Option (List (String × JSValue))) :=
  (store r.path).map extractTFromDocSnap

/-
Model validation (validate).
-/

/-- A JavaScript error value as inspected by the catch clause: its code
property and its message. -/
structure JsError : Type where
  code : String
  message : String
deriving DecidableEq, Repr

/-- One class-validator violation descriptor. -/
structure Violation : Type where
  property : String
  constraintMsg : String
deriving DecidableEq, Repr

/-- The argument of validate: a plain object or an instance of the
entity class (the instanceof test in the source). -/
structure ValidateItem : Type where
  instanceOfEntity : Bool
  fields : List (String × JSValue)

/-- The entity handed to the collaborator:
item instanceof Entity ? item : Object.assign(new Entity(), item) —
a fresh instance receiving the item's fields when the item was plain. -/
def toEntityInstance (item : ValidateItem) : ValidateItem :=
  if item.instanceOfEntity then item else { instanceOfEntity := true, fields := item.fields }

/-- The dynamic import of class-validator together with its validate
call, as the try block observes it: either the collaborator's validate
function, or the error thrown by the failed import. -/
def ClassValidatorImport : Type :=
  Except JsError (ValidateItem → Except JsError (List Violation))

/-- The setup error thrown when the import failed with code
MODULE_NOT_FOUND: class-validator is not installed. -/
def classValidatorNotInstalledError : JsError :=
  { code := "CLASS_VALIDATOR_NOT_INSTALLED",
    message := "It looks like class-validator is not installed." }

/-- validate(item): inside a try, import class-validator, build the
entity instance and run the collaborator's validate, returning its
violation list; the catch clause rethrows an error whose code is
MODULE_NOT_FOUND as the install-instruction setup error and propagates
every other error unchanged. -/
def repositoryValidate (imp : ClassValidatorImport) (item : ValidateItem) :
    Except JsError (List Violation) :=
  let attempt : Except JsError (List Violation) :=
    match imp with
    | Except.error e => Except.error e
    | Except.ok classValidatorValidate => classValidatorValidate (toEntityInstance item)
  match attempt with
  | Except.ok violations => Except.ok violations
  | Except.error e =>
    if e.code == "MODULE_NOT_FOUND" then Except.error classValidatorNotInstalledError
    else Except.error e

/-
Auxiliary definitions used by the statements below.
-/

/-- The rewrite applied to one field value by the forEach body, falsy
skip included: exactly what transformFirestoreTypes does per key. -/
def transformEntry (v : JSValue) : JSValue :=
  if jsFalsy v then v else transformField v

/-- Modelled from the spec: a value is geo-point-like when it exposes
latitude and longitude properties — structural capability, irrespective
of the wrapper type's name.  Used to compare the spec's duck-typed
identification with the source's identification. -/
def isGeoPointLike : JSValue → Bool
  | JSValue.vobj _ _ _ fields =>
    (jsLookup fields "latitude").isSome && (jsLookup fields "longitude").isSome
  | _ => false

/-- The precondition under which a clause-adding call returns normally:
only limit restricts its argument. -/
def clauseValid : ClauseCall → Prop
  | ClauseCall.limit n => 0 ≤ n
  | _ => True

/-- The builder each clause-adding entry point returns: a fresh builder
with the one clause applied. -/
def expectedBuilder : ClauseCall → QueryBuilderState
  | ClauseCall.whereEqualTo p v => qbWhere newQueryBuilder FirestoreOperator.opEq p v
  | ClauseCall.whereGreaterThan p v => qbWhere newQueryBuilder FirestoreOperator.opGt p v
  | ClauseCall.whereGreaterOrEqualThan p v => qbWhere newQueryBuilder FirestoreOperator.opGe p v
  | ClauseCall.whereLessThan p v => qbWhere newQueryBuilder FirestoreOperator.opLt p v
  | ClauseCall.whereLessOrEqualThan p v => qbWhere newQueryBuilder FirestoreOperator.opLe p v
  | ClauseCall.whereArrayContains p v => qbWhere newQueryBuilder FirestoreOperator.opArrayContains p v
  | ClauseCall.limit n => qbLimit newQueryBuilder n
  | ClauseCall.orderByAscending p => qbOrderBy newQueryBuilder p true
  | ClauseCall.orderByDescending p => qbOrderBy newQueryBuilder p false

/-
Shared helper lemmas.
-/

/-- transformFirestoreTypes is the per-field rewrite transformEntry
mapped over the document's key/value list in order. -/
theorem transformFirestoreTypes_eq_map :
    ∀ l : List (String × JSValue),
      transformFirestoreTypes l = l.map (fun kv => (kv.1, transformEntry kv.2))
  | [] => rfl
  | (k, v) :: rest => by
    simp [transformFirestoreTypes, transformFirestoreTypes_eq_map rest, transformEntry]

/-- Folding the sub-collection attachment over descriptors none of which
use the property key k leaves the property at k unchanged. -/
theorem attach_foldl_skip (path eid : String) (tran : Option Nat) :
    ∀ (l : List SubCollectionMetadata) (e : HEntity) (k : String),
      (∀ sc ∈ l, sc.propertyKey ≠ k) →
      ((l.foldl (fun e' subCol =>
          { e' with
            props := Function.update e'.props subCol.propertyKey
              (PropSlot.subRepo
                (repoForPath tran (path ++ "/" ++ eid ++ "/" ++ subCol.name))) }) e).props k
        = e.props k)
  | [], _, _, _ => rfl
  | sc :: rest, e, k, h => by
    rw [List.foldl_cons]
    rw [attach_foldl_skip path eid tran rest _ k
      (fun sc' hm => h sc' (List.mem_cons_of_mem _ hm))]
    exact Function.update_noteq (Ne.symm (h sc (List.mem_cons_self _ _))) _ _

/-
Claim C1.
-/

/-- Claim C1 is false on the code at this input: for an existing document
whose identifier is doc1 but whose stored data carries a field named id
with value stored, hydration yields an entity whose id is the stored
field value, not the document identifier — the data spread follows the
id property in the object literal, so the stored field wins. -/
theorem C1_counterexample :
    entityIdOf ((extractTFromDocSnap
        { docExists := true, docId := "doc1", data := [("id", JSValue.vstr "stored")] }).getD [])
      = some (JSValue.vstr "stored")
  ∧ some (JSValue.vstr "stored") ≠ some (JSValue.vstr "doc1") :=
  ⟨rfl, by simp⟩

/-- Claim C1 (amended): for every existing document, when the transformed
stored data contains no field named id, the hydrated entity's id is the
store's document identifier; when the stored data does contain an id
field, that stored value takes precedence over the document
identifier. -/
theorem C1_id_hydration (doc : DocSnapshot) (hex : doc.docExists = true) :
    (jsLookup (transformFirestoreTypes doc.data) "id" = none →
      extractTFromDocSnap doc = some (hydrateFields doc)
      ∧ entityIdOf (hydrateFields doc) = some (JSValue.vstr doc.docId))
  ∧ (∀ w, jsLookup (transformFirestoreTypes doc.data) "id" = some w →
      entityIdOf (hydrateFields doc) = some w) := by
  constructor
  · intro h
    constructor
    · simp [extractTFromDocSnap, hex, plainToClass]
    · simp [entityIdOf, hydrateFields, jsLookup, h]
  · intro w h
    simp [entityIdOf, hydrateFields, jsLookup, h]

/-- Witness for C1: a document doc1 whose data has no id field hydrates
to an entity whose id is doc1. -/
theorem C1_witness :
    extractTFromDocSnap
        { docExists := true, docId := "doc1", data := [("name", JSValue.vstr "ann")] }
      = some (hydrateFields
          { docExists := true, docId := "doc1", data := [("name", JSValue.vstr "ann")] })
  ∧ entityIdOf (hydrateFields
        { docExists := true, docId := "doc1", data := [("name", JSValue.vstr "ann")] })
      = some (JSValue.vstr "doc1") :=
  (C1_id_hydration
    { docExists := true, docId := "doc1", data := [("name", JSValue.vstr "ann")] } rfl).1 rfl

/-
Claim C2.
-/

/-- Claim C2 is false on the code at this input: a geo-point-like value
(an object exposing latitude and longitude) wrapped in a type whose
constructor name is StoreGeoPoint rather than GeoPoint is left
unconverted by transformFirestoreTypes — it is not rewritten to the
plain latitude/longitude structure, so geo-point detection is not
structural. -/
theorem C2_counterexample :
    isGeoPointLike (JSValue.vobj "StoreGeoPoint" false 0
        [("latitude", JSValue.vnum 1), ("longitude", JSValue.vnum 2)]) = true
  ∧ transformFirestoreTypes
        [("position", JSValue.vobj "StoreGeoPoint" false 0
            [("latitude", JSValue.vnum 1), ("longitude", JSValue.vnum 2)])]
      = [("position", JSValue.vobj "StoreGeoPoint" false 0
            [("latitude", JSValue.vnum 1), ("longitude", JSValue.vnum 2)])]
  ∧ JSValue.vobj "StoreGeoPoint" false 0
        [("latitude", JSValue.vnum 1), ("longitude", JSValue.vnum 2)]
      ≠ plainGeo [("latitude", JSValue.vnum 1), ("longitude", JSValue.vnum 2)] :=
  ⟨rfl, rfl, by simp [plainGeo]⟩

/-- Claim C2 (amended): datetime detection is structural — any object
carrying a toDate capability is converted to a native date whatever its
constructor name — while geo-point and document-reference detection
compares the constructor name to GeoPoint and DocumentReference exactly:
wrappers with those names are converted to the plain structures, and an
object under any other constructor name is not converted but recursed
into as a plain composite. -/
theorem C2_amended_detection (ctor : String) (tdv : Int)
    (fs : List (String × JSValue)) :
    transformField (JSValue.vobj ctor true tdv fs) = JSValue.vdate tdv
  ∧ transformField (JSValue.vobj "GeoPoint" false tdv fs) = plainGeo fs
  ∧ transformField (JSValue.vobj "DocumentReference" false tdv fs) = plainRef fs
  ∧ (ctor ≠ "GeoPoint" → ctor ≠ "DocumentReference" →
      transformField (JSValue.vobj ctor false tdv fs)
        = JSValue.vobj ctor false tdv (transformFirestoreTypes fs)) := by
  refine ⟨?_, ?_, ?_, ?_⟩
  · simp [transformField]
  · simp [transformField]
  · simp [transformField]
  · intro h1 h2
    simp [transformField, h1, h2]

/-- Witness for C2: an object with toDate under an arbitrary wrapper name
is converted to a date, and an object named StoreGeoPoint is recursed
into, not converted. -/
theorem C2_witness :
    transformField (JSValue.vobj "StoreTimestamp" true 5 []) = JSValue.vdate 5
  ∧ transformField (JSValue.vobj "StoreGeoPoint" false 0
        [("latitude", JSValue.vnum 1), ("longitude", JSValue.vnum 2)])
      = JSValue.vobj "StoreGeoPoint" false 0
          [("latitude", JSValue.vnum 1), ("longitude", JSValue.vnum 2)] := by
  constructor
  · exact (C2_amended_detection "StoreTimestamp" 5 []).1
  · have h := (C2_amended_detection "StoreGeoPoint" 0
        [("latitude", JSValue.vnum 1), ("longitude", JSValue.vnum 2)]).2.2.2
        (by decide) (by decide)
    rw [h]
    rfl

/-
Claim C3.
-/

/-- Claim C3: transformFirestoreTypes rewrites each field of the raw
document independently and in order; a field carrying a toDate capability
becomes the native date, a GeoPoint field becomes the plain
latitude/longitude structure, a DocumentReference field becomes the
plain id/path structure, any other composite field is recursed into
under the same rules, null and undefined fields are skipped unchanged
without recursion, and every other field is left unchanged. -/
theorem C3_transform_deserialization :
    (∀ l : List (String × JSValue),
       transformFirestoreTypes l = l.map (fun kv => (kv.1, transformEntry kv.2)))
  ∧ (∀ (ctor : String) (tdv : Int) (fs : List (String × JSValue)),
       transformEntry (JSValue.vobj ctor true tdv fs) = JSValue.vdate tdv)
  ∧ (∀ (tdv : Int) (fs : List (String × JSValue)),
       transformEntry (JSValue.vobj "GeoPoint" false tdv fs) = plainGeo fs)
  ∧ (∀ (tdv : Int) (fs : List (String × JSValue)),
       transformEntry (JSValue.vobj "DocumentReference" false tdv fs) = plainRef fs)
  ∧ (∀ (ctor : String) (tdv : Int) (fs : List (String × JSValue)),
       ctor ≠ "GeoPoint" → ctor ≠ "DocumentReference" →
       transformEntry (JSValue.vobj ctor false tdv fs)
         = JSValue.vobj ctor false tdv (transformFirestoreTypes fs))
  ∧ transformEntry JSValue.vnull = JSValue.vnull
  ∧ transformEntry JSValue.vundef = JSValue.vundef
  ∧ (∀ b, transformEntry (JSValue.vbool b) = JSValue.vbool b)
  ∧ (∀ n : Int, transformEntry (JSValue.vnum n) = JSValue.vnum n)
  ∧ (∀ s, transformEntry (JSValue.vstr s) = JSValue.vstr s)
  ∧ (∀ t : Int, transformEntry (JSValue.vdate t) = JSValue.vdate t) := by
  refine ⟨transformFirestoreTypes_eq_map, ?_, ?_, ?_, ?_, rfl, rfl, ?_, ?_, ?_, ?_⟩
  · intro ctor tdv fs; simp [transformEntry, jsFalsy, transformField]
  · intro tdv fs; simp [transformEntry, jsFalsy, transformField]
  · intro tdv fs; simp [transformEntry, jsFalsy, transformField]
  · intro ctor tdv fs h1 h2; simp [transformEntry, jsFalsy, transformField, h1, h2]
  · intro b; unfold transformEntry; cases b <;> rfl
  · intro n; unfold transformEntry; split <;> rfl
  · intro s; unfold transformEntry; split <;> rfl
  · intro t; rfl

/-- Witness for C3: a document mixing a timestamp, a geo point, a
reference, a nested composite holding a timestamp, a string and a null
is deserialized field by field as the claim describes. -/
theorem C3_witness :
    transformFirestoreTypes
        [("seen", JSValue.vobj "Timestamp" true 5 []),
         ("home", JSValue.vobj "GeoPoint" false 0
            [("latitude", JSValue.vnum 1), ("longitude", JSValue.vnum 2)]),
         ("friend", JSValue.vobj "DocumentReference" false 0
            [("id", JSValue.vstr "f"), ("path", JSValue.vstr "users/f")]),
         ("nested", JSValue.vobj "Object" false 0
            [("when", JSValue.vobj "Timestamp" true 7 [])]),
         ("name", JSValue.vstr "ann"),
         ("gone", JSValue.vnull)]
      = [("seen", JSValue.vdate 5),
         ("home", JSValue.vobj "Object" false 0
            [("latitude", JSValue.vnum 1), ("longitude", JSValue.vnum 2)]),
         ("friend", JSValue.vobj "Object" false 0
            [("id", JSValue.vstr "f"), ("path", JSValue.vstr "users/f")]),
         ("nested", JSValue.vobj "Object" false 0
            [("when", JSValue.vdate 7)]),
         ("name", JSValue.vstr "ann"),
         ("gone", JSValue.vnull)] := by
  have hmap := C3_transform_deserialization.1
  have hnest := C3_transform_deserialization.2.2.2.2.1 "Object" 0
    [("when", JSValue.vobj "Timestamp" true 7 [])] (by decide) (by decide)
  rw [hmap, List.map_cons, List.map_cons, List.map_cons, List.map_cons,
    List.map_cons, List.map_cons]
  rw [show transformEntry (JSValue.vobj "Object" false 0
      [("when", JSValue.vobj "Timestamp" true 7 [])])
    = JSValue.vobj "Object" false 0
        (transformFirestoreTypes [("when", JSValue.vobj "Timestamp" true 7 [])])
    from hnest]
  rfl

/-
Claim C4.
-/

/-- Claim C4: for every negative n, the repository's limit throws the
invalid-argument error synchronously as its direct result — the value is
not clamped and no builder (and hence no store interaction) is produced —
and for every non-negative n the call returns a fresh query builder
carrying that limit. -/
theorem C4_limit_guard (r : RepositoryState) (n : Int) :
    (n < 0 →
      repositoryLimit r n = (r, Except.error (RepoCallError.invalidArgument n)))
  ∧ (0 ≤ n →
      repositoryLimit r n = (r, Except.ok (qbLimit newQueryBuilder n))) := by
  constructor
  · intro h; simp [repositoryLimit, h]
  · intro h; simp [repositoryLimit, not_lt.mpr h]

/-- Witness for C4: limit of minus one fails with the invalid-argument
error and limit of two succeeds with a fresh builder. -/
theorem C4_witness :
    repositoryLimit { path := "bands" } (-1)
      = ({ path := "bands" }, Except.error (RepoCallError.invalidArgument (-1)))
  ∧ repositoryLimit { path := "bands" } 2
      = ({ path := "bands" }, Except.ok (qbLimit newQueryBuilder 2)) :=
  ⟨(C4_limit_guard { path := "bands" } (-1)).1 (by decide),
   (C4_limit_guard { path := "bands" } 2).2 (by decide)⟩

/-
Claim C5.
-/

/-- Claim C5: hydrating a snapshot of a non-existent document yields
null (none) rather than an error, and findById of an id absent from the
store resolves to null; extractTFromDocSnap is total, so nothing is
thrown for the not-found case. -/
theorem C5_not_found_not_error (doc : DocSnapshot)
    (store : String → Option (List (String × JSValue))) (id : String) :
    (doc.docExists = false → extractTFromDocSnap doc = none)
  ∧ (store id = none → findById store id = none) := by
  constructor
  · intro h; simp [extractTFromDocSnap, h]
  · intro h; simp [findById, storeGetDoc, extractTFromDocSnap, h]

/-- Witness for C5: the snapshot of the missing document hydrates to
none and findById on an empty store yields none. -/
theorem C5_witness :
    extractTFromDocSnap { docExists := false, docId := "missing", data := [] } = none
  ∧ findById (fun _ => none) "missing" = none :=
  ⟨(C5_not_found_not_error { docExists := false, docId := "missing", data := [] }
      (fun _ => none) "missing").1 rfl,
   (C5_not_found_not_error { docExists := false, docId := "missing", data := [] }
      (fun _ => none) "missing").2 rfl⟩

/-
Claim C6.
-/

/-- Claim C6: repository construction fails with the uninitialized-store
error when firestoreRef is unset, fails with the unregistered-collection
error when the metadata lookup finds nothing for the given key, and
otherwise binds the effective collection path: the literal path when a
string was given, else the resolved metadata's name. -/
theorem C6_constructor_contract (ms : MetadataStorage) (poc : PathOrConstructor)
    (md : FullCollectionMetadata) :
    (ms.firestoreRefSet = false →
      (repositoryConstruct ms poc).1 = Except.error ConstructorError.uninitializedStore)
  ∧ (ms.firestoreRefSet = true → ms.getCollection poc = none →
      (repositoryConstruct ms poc).1
        = Except.error (ConstructorError.unregisteredCollection (keyNameOf poc)))
  ∧ (ms.firestoreRefSet = true → ms.getCollection poc = some md →
      ∀ p, poc = PathOrConstructor.pathStr p →
        (repositoryConstruct ms poc).1 = Except.ok p)
  ∧ (ms.firestoreRefSet = true → ms.getCollection poc = some md →
      ∀ cn, poc = PathOrConstructor.entityCtor cn →
        (repositoryConstruct ms poc).1 = Except.ok md.name) := by
  refine ⟨?_, ?_, ?_, ?_⟩
  · intro h; simp [repositoryConstruct, h]
  · intro h hl; simp [repositoryConstruct, h, hl]
  · intro h hl p hp; subst hp; simp [repositoryConstruct, h, hl]
  · intro h hl cn hp; subst hp; simp [repositoryConstruct, h, hl]

/-- Witness for C6: the four constructor outcomes at concrete storages —
uninitialized store, unregistered key, a literal path, and an entity
constructor resolved to its metadata name. -/
theorem C6_witness :
    (repositoryConstruct { firestoreRefSet := false, getCollection := fun _ => none }
        (PathOrConstructor.pathStr "bands")).1
      = Except.error ConstructorError.uninitializedStore
  ∧ (repositoryConstruct { firestoreRefSet := true, getCollection := fun _ => none }
        (PathOrConstructor.pathStr "bands")).1
      = Except.error (ConstructorError.unregisteredCollection "bands")
  ∧ (repositoryConstruct
        { firestoreRefSet := true, getCollection := fun _ => some { name := "Bands" } }
        (PathOrConstructor.pathStr "bands")).1
      = Except.ok "bands"
  ∧ (repositoryConstruct
        { firestoreRefSet := true, getCollection := fun _ => some { name := "Bands" } }
        (PathOrConstructor.entityCtor "Band")).1
      = Except.ok "Bands" :=
  ⟨(C6_constructor_contract _ _ { name := "Bands" }).1 rfl,
   (C6_constructor_contract _ _ { name := "Bands" }).2.1 rfl rfl,
   (C6_constructor_contract _ _ { name := "Bands" }).2.2.1 rfl rfl "bands" rfl,
   (C6_constructor_contract _ _ { name := "Bands" }).2.2.2 rfl rfl "Band" rfl⟩

/-
Claim C7.
-/

/-- Claim C7: after hydrating a parent entity, for a sub-collection
descriptor of its collection (the last among the descriptors using its
property key), the parent property named by the key holds a repository
bound to the path parent-path/parent-id/sub-collection-name; inside a
transaction that repository is transaction-scoped against the same
transaction context, otherwise it is standalone. -/
theorem C7_subcollection_wiring (path : String)
    (subCols l₁ l₂ : List SubCollectionMetadata) (sc : SubCollectionMetadata)
    (entity : HEntity) (tran : Option Nat)
    (hsplit : subCols = l₁ ++ sc :: l₂)
    (hlast : ∀ sc' ∈ l₂, sc'.propertyKey ≠ sc.propertyKey) :
    (initializeSubCollections path subCols entity tran).props sc.propertyKey
      = PropSlot.subRepo (repoForPath tran (path ++ "/" ++ entity.id ++ "/" ++ sc.name))
  ∧ (∀ t, repoForPath (some t) (path ++ "/" ++ entity.id ++ "/" ++ sc.name)
      = AttachedRepo.transactional t (path ++ "/" ++ entity.id ++ "/" ++ sc.name))
  ∧ repoForPath none (path ++ "/" ++ entity.id ++ "/" ++ sc.name)
      = AttachedRepo.standalone (path ++ "/" ++ entity.id ++ "/" ++ sc.name) := by
  refine ⟨?_, fun t => rfl, rfl⟩
  subst hsplit
  unfold initializeSubCollections
  rw [List.foldl_append, List.foldl_cons]
  rw [attach_foldl_skip path entity.id tran l₂ _ sc.propertyKey hlast]
  exact Function.update_same _ _ _

/-- Witness for C7: hydrating a Post p1 whose collection registers the
sub-collection comments attaches, at the property comments, a standalone
repository bound to posts/p1/comments, and inside transaction 7 a
transaction-scoped repository on the same path and transaction. -/
theorem C7_witness :
    (initializeSubCollections "posts" [{ name := "comments", propertyKey := "comments" }]
        { id := "p1", props := fun _ => PropSlot.absent } none).props "comments"
      = PropSlot.subRepo (AttachedRepo.standalone "posts/p1/comments")
  ∧ (initializeSubCollections "posts" [{ name := "comments", propertyKey := "comments" }]
        { id := "p1", props := fun _ => PropSlot.absent } (some 7)).props "comments"
      = PropSlot.subRepo (AttachedRepo.transactional 7 "posts/p1/comments") := by
  constructor
  · have h := (C7_subcollection_wiring "posts"
        [{ name := "comments", propertyKey := "comments" }] [] []
        { name := "comments", propertyKey := "comments" }
        { id := "p1", props := fun _ => PropSlot.absent } none rfl (by simp)).1
    rw [h]
    rfl
  · have h := (C7_subcollection_wiring "posts"
        [{ name := "comments", propertyKey := "comments" }] [] []
        { name := "comments", propertyKey := "comments" }
        { id := "p1", props := fun _ => PropSlot.absent } (some 7) rfl (by simp)).1
    rw [h]
    rfl

/-
Claim C8.
-/

/-- Claim C8: validate returns the violation list produced by the
class-validator collaborator (empty meaning valid); when the collaborator
is unavailable — the import fails with code MODULE_NOT_FOUND — the call
fails with the install-instruction setup error, which as a thrown error
is distinct from any validation outcome; and any error from the
collaborator with a different code is propagated unchanged. -/
theorem C8_validate_contract (f : ValidateItem → Except JsError (List Violation))
    (item : ValidateItem) (vs : List Violation) (e : JsError) :
    (f (toEntityInstance item) = Except.ok vs →
      repositoryValidate (Except.ok f) item = Except.ok vs)
  ∧ (e.code = "MODULE_NOT_FOUND" →
      repositoryValidate (Except.error e) item
        = Except.error classValidatorNotInstalledError)
  ∧ (f (toEntityInstance item) = Except.error e → e.code ≠ "MODULE_NOT_FOUND" →
      repositoryValidate (Except.ok f) item = Except.error e)
  ∧ (∀ vs' : List Violation,
      (Except.error classValidatorNotInstalledError : Except JsError (List Violation))
        ≠ Except.ok vs') := by
  refine ⟨?_, ?_, ?_, ?_⟩
  · intro h; simp [repositoryValidate, h]
  · intro h; simp [repositoryValidate, h]
  · intro h hne; simp [repositoryValidate, h, hne]
  · intro vs' h; cases h

/-- Witness for C8: a collaborator returning no violations yields the
empty list, a failed import with code MODULE_NOT_FOUND yields the setup
error, and a collaborator error with another code passes through
unchanged. -/
theorem C8_witness :
    repositoryValidate (Except.ok (fun _ => Except.ok ([] : List Violation)))
        { instanceOfEntity := false, fields := [] }
      = Except.ok []
  ∧ repositoryValidate
        (Except.error { code := "MODULE_NOT_FOUND", message := "Cannot find module" })
        { instanceOfEntity := false, fields := [] }
      = Except.error classValidatorNotInstalledError
  ∧ repositoryValidate
        (Except.ok (fun _ => Except.error { code := "EVAL_ERROR", message := "boom" }))
        { instanceOfEntity := true, fields := [] }
      = Except.error { code := "EVAL_ERROR", message := "boom" } :=
  ⟨(C8_validate_contract (fun _ => Except.ok [])
      { instanceOfEntity := false, fields := [] } []
      { code := "X", message := "x" }).1 rfl,
   (C8_validate_contract (fun _ => Except.ok [])
      { instanceOfEntity := false, fields := [] } []
      { code := "MODULE_NOT_FOUND", message := "Cannot find module" }).2.1 rfl,
   (C8_validate_contract (fun _ => Except.error { code := "EVAL_ERROR", message := "boom" })
      { instanceOfEntity := true, fields := [] } []
      { code := "EVAL_ERROR", message := "boom" }).2.2.1 rfl (by decide)⟩

/-
Claim C9.
-/

/-- Claim C9: every clause-adding entry point of the repository — the six
where-filters, limit, and the two order-bys — leaves the receiver
repository unchanged, so the repository keeps producing the same results
it produced before the call, and (for valid arguments) returns a fresh
query builder carrying exactly the one added clause. -/
theorem C9_clause_calls_pure (r : RepositoryState) (c : ClauseCall)
    (store : String → List DocSnapshot) :
    (repositoryClauseCall r c).1 = r
  ∧ repositoryFindAll (repositoryClauseCall r c).1 store = repositoryFindAll r store
  ∧ (clauseValid c → (repositoryClauseCall r c).2 = Except.ok (expectedBuilder c)) := by
  refine ⟨?_, ?_, ?_⟩
  · cases c <;> simp [repositoryClauseCall, repositoryLimit] <;> split <;> rfl
  · cases c <;> simp [repositoryClauseCall, repositoryLimit] <;> split <;> rfl
  · cases c <;> intro hv <;>
      simp [repositoryClauseCall, repositoryLimit, expectedBuilder, clauseValid] at hv ⊢
    split
    · omega
    · rfl

/-- Witness for C9: a limit call with argument three leaves the
repository and its results untouched and returns the fresh builder
carrying the limit. -/
theorem C9_witness :
    (repositoryClauseCall { path := "bands" } (ClauseCall.limit 3)).1 = { path := "bands" }
  ∧ repositoryFindAll (repositoryClauseCall { path := "bands" } (ClauseCall.limit 3)).1
        (fun _ => [])
      = repositoryFindAll { path := "bands" } (fun _ => [])
  ∧ (repositoryClauseCall { path := "bands" } (ClauseCall.limit 3)).2
      = Except.ok (expectedBuilder (ClauseCall.limit 3)) := by
  have h := C9_clause_calls_pure { path := "bands" } (ClauseCall.limit 3) (fun _ => [])
  exact ⟨h.1, h.2.1, h.2.2 (by simp [clauseValid])⟩

/-
Claim C10.
-/

/-- Claim C10: when the store connection has not been established,
construction fails with the uninitialized-store error and performs no
collection lookup on the metadata registry — whatever the lookup would
have answered, including for unregistered keys. -/
theorem C10_uninitialized_before_lookup
    (lookup : PathOrConstructor → Option FullCollectionMetadata)
    (poc : PathOrConstructor) :
    repositoryConstruct { firestoreRefSet := false, getCollection := lookup } poc
      = (Except.error ConstructorError.uninitializedStore, []) := by
  simp [repositoryConstruct]

end Fireorm
